import Mathlib

/-!
Verification of the rule/macro tooling of the `power-bi-agentic-development`
repository: a shallow embedding of the Python sources
(`scripts/bpa_rules_audit.py`, `skills/bpa-rules/scripts/validate_rules.py`,
`skills/c-sharp-macros/scripts/add_macro.py`,
`skills/c-sharp-macros/scripts/create_macros_json.py`) together with proofs
about them.

Modelling conventions:
* JSON scalar values are embedded as `JValue`; a JSON object is an
  association list `JObj` looked up first-match (Python dicts produced by
  `json.loads` have unique keys, so first-match agrees with dict lookup).
* Python `str` is Lean `String`; character-level operations work on `.data`.
* Fallible Python code (code that can raise) is embedded in `Except String`.
* File and network I/O is abstracted: file contents and fetch outcomes are
  inputs of the embedded functions.
-/

/-- ASCII whitespace, as recognised by Python `str.strip`/`str.lstrip` and by
the regex class `\s` (restricted to ASCII, which is all the sources use). -/
def pyWs (c : Char) : Bool :=
  c = ' ' || c = '\t' || c = '\n' || c = '\r' || c = '\x0b' || c = '\x0c'

/-- Drop leading whitespace from a character list (Python `lstrip`). -/
def stripLeftL (l : List Char) : List Char := l.dropWhile pyWs

/-- Drop trailing whitespace from a character list. -/
def stripRightL (l : List Char) : List Char := (l.reverse.dropWhile pyWs).reverse

/-- Python `str.strip()` on a character list. -/
def pyStripChars (l : List Char) : List Char := stripRightL (stripLeftL l)

/-- Python `str.strip()`. -/
def pyStrip (s : String) : String := ⟨pyStripChars s.data⟩

/-- Python `str.lstrip()`. -/
def pyLstrip (s : String) : String := ⟨stripLeftL s.data⟩

/-- Python `s.startswith(pre)`. -/
def strStarts (s pre : String) : Bool := pre.data.isPrefixOf s.data

/-- Python `s.endswith(suf)`. -/
def strEnds (s suf : String) : Bool := suf.data.isSuffixOf s.data

/-- Python slicing `s[n:]` (character based). -/
def strDrop (s : String) (n : Nat) : String := ⟨s.data.drop n⟩

/-- Python `s[1:-1]`. -/
def strSliceInner (s : String) : String := ⟨(s.data.drop 1).dropLast⟩

/-- Index of the first occurrence of `needle` in `hay`
(Python `hay.index(needle)`); `none` when absent (so `(strFind n h).isSome`
is Python `n in h`). -/
def strFind (needle : List Char) : List Char → Option Nat
  | [] => if needle = [] then some 0 else none
  | c :: t => if needle.isPrefixOf (c :: t) then some 0 else (strFind needle t).map (· + 1)

/-- Python `needle in hay` for strings. -/
def strContains (hay needle : String) : Bool := (strFind needle.data hay.data).isSome

/-- Python `sep.join(xs)`. -/
def pyJoin (sep : String) : List String → String
  | [] => ""
  | [x] => x
  | x :: y :: xs => x ++ sep ++ pyJoin sep (y :: xs)

/-- JSON scalar values (the fragment the audited record fields range over). -/
inductive JValue where
  | str (s : String)
  | num (n : Int)
  | bool (b : Bool)
  | null
deriving DecidableEq, Repr

/-- A JSON object: an association list with first-match lookup. -/
abbrev JObj := List (String × JValue)

/-- First-match association lookup (Python `d.get(k)` / `d[k]`). -/
def jlookup (k : String) : JObj → Option JValue
  | [] => none
  | (k', v) :: rest => if k' = k then some v else jlookup k rest

/-- Python `d.get(k, dflt)`. -/
def jgetD (d : JObj) (k : String) (dflt : JValue) : JValue :=
  (jlookup k d).getD dflt

/-- Python `str(v)` / f-string formatting of a JSON scalar. -/
def pyStr : JValue → String
  | .str s => s
  | .num n => toString n
  | .bool b => if b then "True" else "False"
  | .null => "None"

/-- Python truthiness of a JSON scalar (`if v:`). -/
def pyTruthyJ : JValue → Bool
  | .str s => s ≠ ""
  | .num n => n ≠ 0
  | .bool b => b
  | .null => false

/-- Python truthiness of an `Optional[str]` field. -/
def pyTruthyOptStr : Option String → Bool
  | none => false
  | some s => s ≠ ""

/-- The `BPARule` dataclass of `bpa_rules_audit.py`.  The nine data fields
hold the raw values stored by `from_dict` (the Python dataclass does not
enforce its annotations at runtime), the three flags are genuine booleans. -/
structure BPARule where
  id : JValue
  name : JValue
  severity : JValue
  scope : JValue
  expression : JValue
  category : JValue
  description : JValue
  fix_expression : JValue
  compatibility_level : JValue
  is_builtin : Bool := false
  is_enabled : Bool := true
  is_ignored : Bool := false
deriving DecidableEq, Repr

/-- `BPARule.from_dict` (bpa_rules_audit.py lines 90-104).  Absent optional
keys give Python `None`, which `json` also uses for JSON `null`; both are
embedded as `JValue.null`. -/
def BPARule.from_dict (data : JObj) : BPARule :=
  { id := jgetD data ("ID") (.str ("UNKNOWN"))
  , name := jgetD data ("Name") (.str ("Unnamed"))
  , severity := jgetD data ("Severity") (.num 1)
  , scope := jgetD data ("Scope") (.str (""))
  , expression := jgetD data ("Expression") (.str (""))
  , category := jgetD data ("Category") .null
  , description := jgetD data ("Description") .null
  , fix_expression := jgetD data ("FixExpression") .null
  , compatibility_level := jgetD data ("CompatibilityLevel") .null }

/-- `parse_bpa_rules_json` (lines 379-392), with the file read and JSON
parse abstracted: given the decoded JSON array it maps `from_dict` over it
(the non-array case returns `[]` and is not needed by the claims). -/
def parse_bpa_rules_json (data : List JObj) : List BPARule :=
  data.map BPARule.from_dict

/-- The per-rule dictionary built by `export_json`'s `source_to_dict`
(lines 928-945): note the key list — `Description` is not among them. -/
def exportRuleDict (r : BPARule) (include_status : Bool) : JObj :=
  let base : JObj :=
    [ ("ID", r.id), ("Name", r.name), ("Category", r.category)
    , ("Severity", r.severity), ("Scope", r.scope), ("Expression", r.expression)
    , ("FixExpression", r.fix_expression), ("CompatibilityLevel", r.compatibility_level)
    , ("IsIgnored", .bool r.is_ignored) ]
  if include_status then
    base ++ [("IsEnabled", .bool r.is_enabled), ("IsBuiltIn", .bool r.is_builtin)]
  else base

/-- `RuleSource` dataclass (lines 124-152). `path` is kept as an optional
path string. -/
structure RuleSource where
  location : String
  path : Option String := none
  rules : List BPARule := []
  error : Option String := none
deriving DecidableEq, Repr

/-- `RuleSource.count`. -/
def RuleSource.count (s : RuleSource) : Nat := s.rules.length

/-- `RuleSource.enabled_count`. -/
def RuleSource.enabled_count (s : RuleSource) : Nat :=
  (s.rules.filter (fun r => r.is_enabled)).length

/-- `RuleSource.ignored_count`. -/
def RuleSource.ignored_count (s : RuleSource) : Nat :=
  (s.rules.filter (fun r => r.is_ignored)).length

/-- `RuleSource.active_count`. -/
def RuleSource.active_count (s : RuleSource) : Nat :=
  (s.rules.filter (fun r => r.is_enabled && !r.is_ignored)).length

/-- The (source-level) dictionary produced by `source_to_dict`
(lines 947-955). -/
structure SourceDict where
  location : String
  path : Option String
  count : Nat
  active_count : Nat
  ignored_count : Nat
  error : Option String
  rules : List JObj
deriving DecidableEq, Repr

/-- `source_to_dict` of `export_json` (lines 928-955). -/
def source_to_dict (s : RuleSource) (include_status : Bool) : SourceDict :=
  { location := s.location
  , path := s.path
  , count := s.count
  , active_count := s.active_count
  , ignored_count := s.ignored_count
  , error := s.error
  , rules := s.rules.map (fun r => exportRuleDict r include_status) }

/-- `BuiltInConfig` dataclass (lines 155-163). -/
structure BuiltInConfig where
  status : String
  disabled_ids : List String := []
  app_version : Option String := none
  path : Option String := none
  error : Option String := none
deriving DecidableEq, Repr

/-- `AuditResult` dataclass (lines 166-220). -/
structure AuditResult where
  model_path : String
  model_format : String
  platform : String
  builtin_config : BuiltInConfig
  builtin_rules : RuleSource
  url_rules : List RuleSource
  model_rules : RuleSource
  user_rules : RuleSource
  machine_rules : RuleSource
  ignored_rule_ids : List String := []
deriving DecidableEq, Repr

/-- `AuditResult.url_rules_count`. -/
def AuditResult.url_rules_count (r : AuditResult) : Nat :=
  (r.url_rules.map RuleSource.count).sum

/-- `AuditResult.total_rules` (lines 189-198). -/
def AuditResult.total_rules (r : AuditResult) : Nat :=
  r.builtin_rules.count + r.url_rules_count + r.model_rules.count +
    r.user_rules.count + r.machine_rules.count

/-- The exit-code computation at the end of `main` (lines 1056-1068):
`has_errors` is the Python `or`-chain over `builtin_config.error`,
`model_rules.error`, `user_rules.error` and `machine_rules.error`
(an `Optional[str]` is truthy when it is a non-empty string). -/
def mainExitCode (r : AuditResult) : Nat :=
  if pyTruthyOptStr r.builtin_config.error || pyTruthyOptStr r.model_rules.error
      || pyTruthyOptStr r.user_rules.error || pyTruthyOptStr r.machine_rules.error then 1
  else if r.total_rules = 0 then 2
  else 0

/-- The exit-code policy exactly as claim C1 states it: 1 when any
per-source error exists for any of the five source groups (built-in,
URL-based, model-embedded, user-level, machine-level), else 2 when the
total record count is zero, else 0.  Used to compare the claim against
`mainExitCode`. -/
def claimedExitCodeC1 (r : AuditResult) : Nat :=
  if r.builtin_rules.error.isSome || r.url_rules.any (fun s => s.error.isSome)
      || r.model_rules.error.isSome || r.user_rules.error.isSome
      || r.machine_rules.error.isSome then 1
  else if r.total_rules = 0 then 2
  else 0

/-- The exit-code policy as amended: only a (non-empty) error of the
built-in configuration or of the model-embedded, user-level or
machine-level source yields exit 1; URL-source errors are not consulted. -/
def amendedExitCodeC1 (r : AuditResult) : Nat :=
  if [r.builtin_config.error, r.model_rules.error, r.user_rules.error,
      r.machine_rules.error].any pyTruthyOptStr then 1
  else if r.total_rules = 0 then 2
  else 0

/-- A concrete audit result as produced by a run on Windows where the
built-in rules and Preferences.json are found, the model/user/machine
sources parse cleanly, and the single configured external rule URL fails
with an HTTP error (`fetch_rules_from_url` lines 417-418 store the error
on the source). -/
def c1CexAudit : AuditResult :=
  { model_path := "C:/models/model.bim"
  , model_format := "model.bim"
  , platform := "windows"
  , builtin_config :=
      { status := "Enable", path := some ("C:/Users/u/AppData/Local/TabularEditor3/Preferences.json") }
  , builtin_rules :=
      { location := "Built-in (TE3)"
      , path := some ("C:/Users/u/AppData/Local/TabularEditor3/Preferences.json")
      , rules := [ { id := .str ("TE3_BUILT_IN_DATE_TABLE_EXISTS")
                   , name := .str ("Date table should exist")
                   , severity := .num 2, scope := .str ("Various")
                   , expression := .str ("(built-in)")
                   , category := .str ("Schema")
                   , description := .str ("Date table should exist")
                   , fix_expression := .null, compatibility_level := .null
                   , is_builtin := true } ] }
  , url_rules :=
      [ { location := "URL: https://example.com/rules.json"
        , error := some ("HTTP 404: Not Found") } ]
  , model_rules := { location := "Model-embedded", path := some ("C:/models/model.bim") }
  , user_rules := { location := "User-level (LocalAppData)"
                  , path := some ("C:/Users/u/AppData/Local/TabularEditor3/BPARules.json") }
  , machine_rules := { location := "Machine-level (ProgramData)"
                     , path := some ("C:/ProgramData/TabularEditor3/BPARules.json") } }

/-! ### `validate_rules.py` (skills/bpa-rules/scripts) -/

/-- `REQUIRED_FIELDS` (validate_rules.py line 40). -/
def REQUIRED_FIELDS : List String := ["ID", "Name", "Severity", "Scope", "Expression"]

/-- `OPTIONAL_FIELDS` (line 41). -/
def OPTIONAL_FIELDS : List String :=
  ["Category", "Description", "FixExpression", "CompatibilityLevel", "Source", "Remarks"]

/-- `ALLOWED_FIELDS` (line 42). -/
def ALLOWED_FIELDS : List String := REQUIRED_FIELDS ++ OPTIONAL_FIELDS

/-- `RUNTIME_FIELDS` of `check_te_compatibility` (line 145). -/
def RUNTIME_FIELDS : List String := ["ErrorMessage", "ObjectCount"]

/-- `STANDARD_CATEGORIES` (lines 58-62). -/
def STANDARD_CATEGORIES : List String :=
  [ "DAX Expressions", "Metadata", "Performance", "Naming Conventions"
  , "Model Layout", "Formatting", "Governance", "Maintenance", "Error Prevention"
  , "Data Quality" ]

/-- All validation and compatibility messages have the shape
`f"[{rule_id}] <text>"`; this is that shape. -/
def msgFor (rid tail : String) : String := "[" ++ rid ++ "] " ++ tail

/-- `rule.get("ID", f"Rule at index {i}")`, formatted by the surrounding
f-string, as used by `check_te_compatibility` and `validate_rule_extras`. -/
def ruleIdStr (rule : JObj) (i : Nat) : String :=
  match jlookup ("ID") rule with
  | some v => pyStr v
  | none => "Rule at index " ++ toString i

/-- The distinct keys of a JSON object (Python `set(rule.keys())`, in key
order; Python set iteration order is unspecified, first-appearance order is
the deterministic model choice — no claim inspects these message bodies). -/
def keysOf (r : JObj) : List String := (r.map Prod.fst).dedup

/-- Python `repr` of a set of strings, in the given order. -/
def pySetRepr (xs : List String) : String :=
  "\x7b" ++ String.intercalate (", ") (xs.map (fun s => "\x27" ++ s ++ "\x27")) ++ "\x7d"

/-- The per-rule body of `check_te_compatibility` (lines 147-162). -/
def teCompatRule (i : Nat) (rule : JObj) : List String :=
  let rid := ruleIdStr rule i
  let cmt : List String :=
    if (jlookup ("_comment") rule).isSome then
      [msgFor rid ("Contains \x27_comment\x27 field - TE doesn\x27t allow extra properties")]
    else []
  let runtimeFound := RUNTIME_FIELDS.filter (fun f => (keysOf rule).contains f)
  let rt : List String :=
    if runtimeFound ≠ [] then
      [msgFor rid ("Contains runtime fields " ++ pySetRepr runtimeFound ++
        " - remove these (TE adds them automatically)")]
    else []
  let unknownFields := (keysOf rule).filter
    (fun k => !ALLOWED_FIELDS.contains k && !RUNTIME_FIELDS.contains k && k ≠ "_comment")
  let unk : List String :=
    if unknownFields ≠ [] then
      [msgFor rid ("Contains unknown fields: " ++ pySetRepr unknownFields)]
    else []
  cmt ++ rt ++ unk

/-- `check_te_compatibility` (lines 132-166): rules are modelled as JSON
objects (a non-object element would raise `AttributeError` in the Python
code at `rule.get`; the claims only concern object records). -/
def check_te_compatibility (rules : List JObj) : List String :=
  (rules.enum.map (fun p => teCompatRule p.1 p.2)).flatten

/-- Python `rule.get("Severity", 1) < 3`; comparing a string or `None`
against an int raises `TypeError` in Python 3. -/
def pySevLt3 : JValue → Except String Bool
  | .num n => .ok (decide (n < 3))
  | .bool b => .ok (decide ((if b then (1 : Int) else 0) < 3))
  | .str _ => .error ("TypeError: unsupported comparison")
  | .null => .error ("TypeError: unsupported comparison")

/-- The destructive-fix message of `validate_rule_extras` (line 255). -/
def destructiveFixMsg (rid : String) : String :=
  msgFor rid ("FixExpression uses Delete() but Severity < 3 (destructive fix on low-severity rule)")

/-- The ID naming-convention check of `validate_rule_extras`
(lines 241-245): it only prints a warning, but `id_val.startswith` raises
`AttributeError` on a non-string `ID` value. -/
def idCheck (rule : JObj) : Except String Unit :=
  match jlookup ("ID") rule with
  | some (.str _) => .ok ()
  | some (.num _) => .error ("AttributeError: startswith")
  | some (.bool _) => .error ("AttributeError: startswith")
  | some .null => .error ("AttributeError: startswith")
  | none => .ok ()

/-- The FixExpression / destructive-fix check (lines 252-255):
`fix is not None and "Delete()" in fix and rule.get("Severity", 1) < 3`.
`"Delete()" in fix` raises `TypeError` on a number or boolean. -/
def fixCheck (rule : JObj) (rid : String) : Except String (List String) :=
  match jlookup ("FixExpression") rule with
  | none => .ok []
  | some .null => .ok []
  | some (.str f) =>
    if strContains f ("Delete()") then
      match pySevLt3 (jgetD rule ("Severity") (.num 1)) with
      | .error e => .error e
      | .ok true => .ok [destructiveFixMsg rid]
      | .ok false => .ok []
    else .ok []
  | some (.num _) => .error ("TypeError: argument of type is not iterable")
  | some (.bool _) => .error ("TypeError: argument of type is not iterable")

/-- The Expression check (lines 258-263): prints warnings only, but the
substring tests raise `TypeError` on a non-string `Expression` value. -/
def exprCheck (rule : JObj) : Except String Unit :=
  match jlookup ("Expression") rule with
  | some (.str _) => .ok ()
  | some (.num _) => .error ("TypeError: argument of type is not iterable")
  | some (.bool _) => .error ("TypeError: argument of type is not iterable")
  | some .null => .error ("TypeError: argument of type is not iterable")
  | none => .ok ()

/-- `validate_rule_extras` (lines 226-265).  Warnings are printed, not
collected, so only the `messages` list is returned; Python runtime type
errors surface as `Except.error` (the Category check at lines 248-249
cannot raise and only prints, so it contributes nothing here). -/
def validate_rule_extras (rule : JObj) (index : Nat) : Except String (List String) :=
  match idCheck rule with
  | .error e => .error e
  | .ok _ =>
    match fixCheck rule (ruleIdStr rule index) with
    | .error e => .error e
    | .ok messages =>
      match exprCheck rule with
      | .error e => .error e
      | .ok _ => .ok messages

/-- The duplicate-ID message (line 309). -/
def dupIdMsg (rid : String) : String := msgFor rid ("Duplicate rule ID")

/-- The per-rule loop of `validate_rules_file` (lines 294-311): `seen` is
the `seen_ids` set (the raw values returned by `rule.get("ID")`). -/
def vrfLoop : List (Nat × JObj) → List JValue → Except String (List String)
  | [], _ => .ok []
  | (i, rule) :: rest, seen =>
    match validate_rule_extras rule i with
    | .error e => .error e
    | .ok extraErrs =>
      let rid := jgetD rule ("ID") .null
      let dupErrs := if pyTruthyJ rid then
          (if seen.contains rid then [dupIdMsg (pyStr rid)] else [])
        else []
      let seenNext := if pyTruthyJ rid then seen ++ [rid] else seen
      match vrfLoop rest seenNext with
      | .error e => .error e
      | .ok restErrs => .ok (extraErrs ++ dupErrs ++ restErrs)

/-- `validate_rules_file` (lines 268-312) on the path the claims concern:
no schema document supplied (`schema = None`), `schema_only = False`.
Elements are modelled as JSON objects, so the `isinstance(rule, dict)`
guard always passes. Returns `(total_rules, error_count, error_messages)`. -/
def validate_rules_file (rules : List JObj) : Except String (Nat × Nat × List String) :=
  match vrfLoop rules.enum [] with
  | .error e => .error e
  | .ok loopErrors =>
    let allErrors := check_te_compatibility rules ++ loopErrors
    .ok (rules.length, allErrors.length, allErrors)

/-- The number of duplicate-ID errors for identifier `id` among the
messages of a `validate_rules_file` result (0 when the run raised). -/
def dupIdErrorCount (id : String) : Except String (Nat × Nat × List String) → Nat
  | .ok (_, _, msgs) => msgs.count (dupIdMsg id)
  | .error _ => 0

/-- The field-typing needed so that `validate_rules_file` cannot raise a
Python `TypeError`/`AttributeError` on a record: `ID`, `Expression` are
strings when present, `FixExpression` a string or null when present,
`Severity` a number when present. -/
def wfRecord (r : JObj) : Bool :=
  (match jlookup ("ID") r with
   | none => true | some (.str _) => true | some _ => false) &&
  (match jlookup ("Expression") r with
   | none => true | some (.str _) => true | some _ => false) &&
  (match jlookup ("FixExpression") r with
   | none => true | some (.str _) => true | some .null => true | some _ => false) &&
  (match jlookup ("Severity") r with
   | none => true | some (.num _) => true | some _ => false)

/-! ### Macro scripts (skills/c-sharp-macros/scripts) -/

/-- A macro record as written into `MacroActions.json`.  `Enabled` is kept
as a `JValue` because the scripts store the *string* `"true"` there, not a
boolean. -/
structure Macro where
  Id : Int
  Name : String
  Enabled : JValue
  Execute : String
  Tooltip : String
  ValidContexts : String
deriving DecidableEq, Repr

/-- The metadata dictionary of `parse_macro_metadata`. -/
structure MacroMeta where
  name : Option String := none
  tooltip : Option String := none
  context : Option String := none
deriving DecidableEq, Repr

/-- One iteration of the loop of `parse_macro_metadata`
(create_macros_json.py lines 48-57). -/
def parseMacroMetaLine (m : MacroMeta) (line : String) : MacroMeta :=
  let line := pyStrip line
  if strStarts line ("// Name:") then { m with name := some (pyStrip (strDrop line 8)) }
  else if strStarts line ("// Tooltip:") then { m with tooltip := some (pyStrip (strDrop line 11)) }
  else if strStarts line ("// Context:") then { m with context := some (pyStrip (strDrop line 11)) }
  else if strStarts line ("// Description:") then { m with tooltip := some (pyStrip (strDrop line 15)) }
  else m

/-- `parse_macro_metadata` (lines 30-59). -/
def parse_macro_metadata (content : String) : MacroMeta :=
  ((content.splitOn ("\n")).take 20).foldl parseMacroMetaLine {}

/-- Python `str.title()` (ASCII letters; sufficient for the sources). -/
def pyTitleChars : List Char → Bool → List Char
  | [], _ => []
  | c :: rest, prevCased =>
    if c.isAlpha then
      (if prevCased then c.toLower else c.toUpper) :: pyTitleChars rest true
    else c :: pyTitleChars rest false

/-- Python `str.title()`. -/
def pyTitle (s : String) : String := ⟨pyTitleChars s.data false⟩

/-- Python `str.replace(a, b)` for single-character pattern and
replacement, which is all the sources use. -/
def replaceChar (s : String) (a b : Char) : String :=
  ⟨s.data.map (fun c => if c = a then b else c)⟩

/-- The default macro name derived from a file stem:
`csx_path.stem.replace("-", " ").replace("_", " ").title()`. -/
def defaultMacroName (stem : String) : String :=
  pyTitle (replaceChar (replaceChar stem '-' ' ') '_' ' ')

/-- `csx_to_macro` (create_macros_json.py lines 62-88) with the file read
abstracted: `stem` is the file's stem, `content` the file's text. -/
def csx_to_macro (stem content : String) (macro_id : Int) : Macro :=
  let metadata := parse_macro_metadata content
  { Id := macro_id
  , Name := metadata.name.getD (defaultMacroName stem)
  , Enabled := .str ("true")
  , Execute := content
  , Tooltip := metadata.tooltip.getD ("")
  , ValidContexts := metadata.context.getD ("Model") }

/-- `create_macros_json` (lines 91-127): each existing file is converted
with ids `enumerate(csx_files, start=1)`; the resulting list is both
written as the `Actions` array and returned.  Files are given as
(stem, content) pairs (the claim concerns readable files, so the
`FileNotFoundError` branch is out of scope). -/
def create_macros_json (files : List (String × String)) : List Macro :=
  files.enum.map (fun p => csx_to_macro p.2.1 p.2.2 ((p.1 : Int) + 1))

/-- Python `max(m.get("Id", 0) for m in macros)` over a non-empty list
(macro records always carry `Id` in this model). -/
def pyMaxIds : List Int → Int
  | [] => 0
  | x :: xs => xs.foldl max x

/-- `get_next_id` (add_macro.py lines 30-34). -/
def get_next_id (macros : List Macro) : Int :=
  if macros.isEmpty then 1 else pyMaxIds (macros.map Macro.Id) + 1

/-- `add_macro` (add_macro.py lines 37-91) with file I/O abstracted:
`actions` is the `Actions` array read from an existing `MacroActions.json`
(`[]` when the file does not exist), and the function returns the
`Actions` array written back together with the created macro record. -/
def add_macro (actions : List Macro) (stem content : String)
    (name : Option String) (tooltip context : String) : List Macro × Macro :=
  let newMacro : Macro :=
    { Id := get_next_id actions
    , Name := name.getD (defaultMacroName stem)
    , Enabled := .str ("true")
    , Execute := content
    , Tooltip := tooltip
    , ValidContexts := context }
  (actions ++ [newMacro], newMacro)

/-- `N` successive `add_macro` calls starting from an empty (or absent)
collection; `args n` supplies the n-th call's stem, content, name
override, tooltip and context. -/
def addMacroIter (args : Nat → String × String × Option String × String × String) :
    Nat → List Macro
  | 0 => []
  | n + 1 =>
    let a := args n
    ( add_macro (addMacroIter args n) a.1 a.2.1 a.2.2.1 a.2.2.2.1 a.2.2.2.2).1

/-! ### URL fetching (`fetch_rules_from_url`, bpa_rules_audit.py) -/

/-- What `urllib` + `json.loads` can produce for one URL: the distinguished
exception classes caught by `fetch_rules_from_url` (lines 417-424) or a
successfully decoded JSON document. -/
inductive FetchData where
  | jarray (records : List JObj)
  | notArray
deriving DecidableEq, Repr

/-- Outcome of the network fetch for one URL. `otherExc` covers the bare
`except Exception` arm (timeouts, SSL errors, ...). -/
inductive FetchOutcome where
  | httpError (code : Int) (reason : String)
  | urlError (reason : String)
  | jsonError (msg : String)
  | otherExc (msg : String)
  | success (dat : FetchData)
deriving DecidableEq, Repr

/-- `True` exactly for the failing outcomes (every `except` arm). -/
def FetchOutcome.isFailure : FetchOutcome → Bool
  | .success _ => false
  | _ => true

/-- `fetch_rules_from_url` (lines 395-426), with the network abstracted as
an oracle `fetch` mapping each URL to its outcome.  Every branch returns a
`RuleSource`; no exception escapes. -/
def fetch_rules_from_url (fetch : String → FetchOutcome) (url : String) : RuleSource :=
  let base : RuleSource := { location := "URL: " ++ url }
  match fetch url with
  | .success (.jarray rs) => { base with rules := rs.map BPARule.from_dict }
  | .success .notArray => { base with error := some ("Response is not a JSON array") }
  | .httpError c r => { base with error := some ("HTTP " ++ toString c ++ ": " ++ r) }
  | .urlError r => { base with error := some ("URL error: " ++ r) }
  | .jsonError m => { base with error := some ("Invalid JSON: " ++ m) }
  | .otherExc m => { base with error := some m }

/-- The URL loop of `audit_bpa_rules` (lines 716-721) with
`fetch_urls = True` (the default used by `main`): one `RuleSource` per
configured URL, in list order. -/
def audit_url_rules (fetch : String → FetchOutcome) (external_urls : List String) :
    List RuleSource :=
  external_urls.map (fetch_rules_from_url fetch)

/-! ### TMDL annotation extraction (`extract_annotation_value`,
bpa_rules_audit.py lines 456-530) -/

/-- Deterministic matcher for the source regex
`^(\s*)annotation\s+<name>\s*=\s*(.*)$` (line 473): returns the captured
base indentation width and group 2 (the raw remainder).  The interpolated
key names used by the callers are plain identifiers (no regex
metacharacters, no leading whitespace), for which maximal-munch scanning
coincides with the backtracking regex. -/
def matchAnnot (name : String) (line : String) : Option (Nat × String) :=
  let l := line.data
  let indent := l.takeWhile pyWs
  let r0 := l.dropWhile pyWs
  if ("annotation").data.isPrefixOf r0 then
    let r1 := r0.drop 10
    match r1 with
    | [] => none
    | c :: _ =>
      if pyWs c then
        let r2 := r1.dropWhile pyWs
        if name.data.isPrefixOf r2 then
          let r3 := r2.drop name.data.length
          let r4 := r3.dropWhile pyWs
          match r4 with
          | '=' :: r5 => some (indent.length, ⟨r5.dropWhile pyWs⟩)
          | _ => none
        else none
      else none
  else none

/-- Python `remainder.isspace()`. -/
def pyIsSpace (s : String) : Bool := !s.data.isEmpty && s.data.all pyWs

/-- The inner loop of the triple-backtick branch (lines 482-491):
accumulate lines until one contains a closing fence; if none does, return
everything accumulated.  Both exits return `combined.strip()`. -/
def fenceScan (combined : List Char) : List String → String
  | [] => ⟨pyStripChars combined⟩
  | l :: ls =>
    match strFind (("```").data) l.data with
    | some idx => ⟨pyStripChars (combined ++ '\n' :: l.data.take idx)⟩
    | none => fenceScan (combined ++ '\n' :: l.data) ls

/-- The fall-through at the end of `extract_annotation_value`
(lines 525-530): join the collected `value_lines` or report nothing-found. -/
def finalizeVal (acc : List String) : Option String :=
  match acc with
  | [] => none
  | _ => some (pyJoin ("\n") acc)

/-- The line loop of `extract_annotation_value` (lines 471-523), with the
loop state (`in_annotation`, `base_indent`, `value_lines`) explicit. -/
def extractLoop (name : String) : List String → Bool → Nat → List String → Option String
  | [], _, _, acc => finalizeVal acc
  | line :: rest, inAnn, baseIndent, acc =>
    match matchAnnot name line with
    | some (b, g2) =>
      let remainder := pyStrip g2
      if strStarts remainder ("```") then
        some (fenceScan (remainder.data.drop 3) rest)
      else if remainder ≠ "" && !pyIsSpace remainder then
        if strStarts remainder ("[") || strStarts remainder ("\x7b") then
          extractLoop name rest true b (acc ++ [remainder])
        else if strStarts remainder ("\x27") && strEnds remainder ("\x27") then
          some (strSliceInner remainder)
        else if strStarts remainder ("\"") && strEnds remainder ("\"") then
          some (strSliceInner remainder)
        else
          some remainder
      else
        extractLoop name rest true b acc
    | none =>
      if inAnn then
        let stripped := pyLstrip line
        let curIndent := line.data.length - stripped.data.length
        if stripped = "" then
          extractLoop name rest true baseIndent acc
        else if curIndent ≤ baseIndent then
          finalizeVal acc
        else
          extractLoop name rest true baseIndent (acc ++ [stripped])
      else
        extractLoop name rest false baseIndent acc

/-- `extract_annotation_value` on the line list (`content.split('\n')` is
the first thing the source does; all subsequent work is on the lines). -/
def extractLines (name : String) (lines : List String) : Option String :=
  extractLoop name lines false 0 []

/-- `extract_annotation_value` (lines 456-530). -/
def extract_annotation_value (content : String) (annotation_name : String) : Option String :=
  extractLines annotation_name (content.splitOn ("\n"))

/-- Indentation width of a line, `len(line) - len(line.lstrip())`
(line 512). -/
def indentGap (l : String) : Nat := l.data.length - (pyLstrip l).data.length

/-- The characters accumulated by the fence loop for a run of lines:
`"\n" + l` for each line (lines 488, 490). -/
def joinNl : List String → List Char
  | [] => []
  | l :: t => '\n' :: (l.data ++ joinNl t)

/-! ### Concrete witness inputs -/

/-- A concrete fetch oracle: the first URL fails with HTTP 404, every
other URL succeeds with an empty rule array. -/
def c7Fetch : String → FetchOutcome := fun u =>
  if u = "https://a.example/r.json" then .httpError 404 ("Not Found")
  else .success (.jarray [])

/-- A concrete two-URL configuration. -/
def c7Urls : List String := ["https://a.example/r.json", "https://b.example/r.json"]

/-- A valid JSON array with one well-formed rule record that carries a
`Description`. -/
def c2CexArr : List JObj :=
  [ [ ("ID", .str ("META_RULE_ONE")), ("Name", .str ("Rule one"))
    , ("Severity", .num 2), ("Scope", .str ("Measure"))
    , ("Expression", .str ("x")), ("Description", .str ("keep me")) ] ]

/-- The rule source obtained by parsing `c2CexArr` (as `parse_file_rules`
does for a user-level `BPARules.json`). -/
def c2CexSource : RuleSource :=
  { location := "User-level (LocalAppData)"
  , path := some ("C:/Users/u/AppData/Local/TabularEditor3/BPARules.json")
  , rules := parse_bpa_rules_json c2CexArr }

/-- Two rule records that carry the same identifier — the empty string. -/
def c4CexRules : List JObj :=
  [ [ ("ID", .str ("")), ("Name", .str ("first")), ("Severity", .num 1)
    , ("Scope", .str ("Model")), ("Expression", .str ("a")) ]
  , [ ("ID", .str ("")), ("Name", .str ("second")), ("Severity", .num 2)
    , ("Scope", .str ("Model")), ("Expression", .str ("b")) ] ]

/-- A rule record with a destructive fix (`Delete()`) and `Severity = 1`. -/
def c5RuleSev1 : JObj :=
  [ ("ID", .str ("MAINT_DROP")), ("Name", .str ("Drop it"))
  , ("Severity", .num 1), ("Scope", .str ("Table"))
  , ("Expression", .str ("true")), ("FixExpression", .str ("obj.Delete()")) ]

/-- The same record with `Severity = 3`. -/
def c5RuleSev3 : JObj :=
  [ ("ID", .str ("MAINT_DROP")), ("Name", .str ("Drop it"))
  , ("Severity", .num 3), ("Scope", .str ("Table"))
  , ("Expression", .str ("true")), ("FixExpression", .str ("obj.Delete()")) ]

/-! ## Helper lemmas -/

/-- `1, 2, ..., n` as integers. -/
def idRange (n : Nat) : List Int := (List.range n).map (fun (i : Nat) => (i : Int) + 1)

theorem pyMaxIds_append_single (l : List Int) (a : Int) (h : l ≠ []) :
    pyMaxIds (l ++ [a]) = max (pyMaxIds l) a := by
  cases l with
  | nil => exact absurd rfl h
  | cons x xs => simp [pyMaxIds, List.foldl_append]

theorem idRange_succ (n : Nat) : idRange (n + 1) = idRange n ++ [(n : Int) + 1] := by
  simp [idRange, List.range_succ]

theorem idRange_ne_nil (n : Nat) (h : 0 < n) : idRange n ≠ [] := by
  cases n with
  | zero => omega
  | succ m => rw [idRange_succ]; simp

theorem pyMaxIds_idRange (n : Nat) (h : 0 < n) : pyMaxIds (idRange n) = (n : Int) := by
  induction n with
  | zero => omega
  | succ m ih =>
    cases Nat.eq_zero_or_pos m with
    | inl hm => subst hm; rfl
    | inr hm =>
      rw [idRange_succ, pyMaxIds_append_single _ _ (idRange_ne_nil m hm), ih hm]
      omega

theorem get_next_id_idRange (macros : List Macro) (n : Nat)
    (h : macros.map Macro.Id = idRange n) : get_next_id macros = (n : Int) + 1 := by
  cases n with
  | zero =>
    have : macros = [] := by
      cases macros with
      | nil => rfl
      | cons x xs => simp [idRange] at h
    simp [this, get_next_id]
  | succ m =>
    have hne : macros ≠ [] := by
      intro he
      rw [he] at h
      exact (idRange_ne_nil (m + 1) (Nat.succ_pos m)) h.symm
    rw [get_next_id, if_neg (by simpa [List.isEmpty_iff] using hne), h,
      pyMaxIds_idRange (m + 1) (Nat.succ_pos m)]

/-! ## Claims -/

/-- **C8.** Every macro record produced by the macro-creation operations
(`add_macro` and `csx_to_macro`) has its `Enabled` field equal to the JSON
*string* `"true"` (a string constructor of `JValue`, not the boolean one). -/
theorem c8_macro_enabled_string_true :
    ∀ (stem content : String) (id : Int) (actions : List Macro)
      (name : Option String) (tooltip context : String),
      ( csx_to_macro stem content id).Enabled = JValue.str ("true") ∧
      ( add_macro actions stem content name tooltip context).2.Enabled = JValue.str ("true") := by
  intros
  exact ⟨rfl, rfl⟩

/-- **C10.** For every existing, valid `MacroActions.json` (its parsed
`Actions` array), `add_macro` writes back an `Actions` array equal to the
previous array with exactly the newly created macro record appended at the
end, so every pre-existing record and its relative order are unchanged. -/
theorem c10_add_macro_appends :
    ∀ (actions : List Macro) (stem content : String) (name : Option String)
      (tooltip context : String),
      ( add_macro actions stem content name tooltip context).1 =
        actions ++ [( add_macro actions stem content name tooltip context).2] := by
  intros
  rfl

/-- **C6.** Building a macro collection from an empty (or absent)
collection over `N` readable script files — either by `create_macros_json`
over the list, or by `N` successive `add_macro` calls — yields an `Actions`
array of length `N` whose `Id` fields are the strictly increasing integers
`1..N` in array order. -/
theorem c6_macro_ids_one_to_n :
    (∀ files : List (String × String),
      (create_macros_json files).length = files.length ∧
      (create_macros_json files).map Macro.Id = idRange files.length) ∧
    (∀ (args : Nat → String × String × Option String × String × String) (N : Nat),
      (addMacroIter args N).length = N ∧
      (addMacroIter args N).map Macro.Id = idRange N) := by
  constructor
  · intro files
    refine ⟨by simp [create_macros_json], ?_⟩
    have h1 : (create_macros_json files).map Macro.Id =
        files.enum.map (fun p => ((p.1 : Int) + 1)) := by
      rw [create_macros_json, List.map_map]
      rfl
    have h2 : files.enum.map (fun p => ((p.1 : Int) + 1)) =
        (files.enum.map Prod.fst).map (fun (i : Nat) => (i : Int) + 1) := by
      rw [List.map_map]
      rfl
    rw [h1, h2, List.enum_map_fst, idRange]
  · intro args N
    induction N with
    | zero => exact ⟨rfl, rfl⟩
    | succ n ih =>
      obtain ⟨ihlen, ihids⟩ := ih
      constructor
      · simp [addMacroIter, add_macro, ihlen]
      · have : (addMacroIter args (n + 1)).map Macro.Id =
            (addMacroIter args n).map Macro.Id ++ [get_next_id (addMacroIter args n)] := by
          simp [addMacroIter, add_macro]
        rw [this, ihids, get_next_id_idRange _ n ihids, idRange_succ]

/-- **C7.** The audit performs one fetch per configured URL, producing
exactly one `RuleSource` per URL in list order; a failing fetch (HTTP
error, URL error, invalid JSON, timeout or any other exception — every
`FetchOutcome` except `success`) never escapes `fetch_rules_from_url`
(which is a total function into `RuleSource`) but yields a source whose
`error` field is set and whose rule list is empty, and it does not prevent
the fetches of the remaining URLs (each list entry depends only on its own
URL's outcome). -/
theorem c7_fetch_per_url_and_failure_isolation :
    ∀ (fetch : String → FetchOutcome) (urls : List String),
      (audit_url_rules fetch urls).length = urls.length ∧
      (∀ (i : Nat) (u : String), urls[i]? = some u →
        (audit_url_rules fetch urls)[i]? = some (fetch_rules_from_url fetch u)) ∧
      (∀ u : String, (fetch u).isFailure = true →
        (fetch_rules_from_url fetch u).error.isSome = true ∧
        (fetch_rules_from_url fetch u).rules = []) := by
  intro fetch urls
  refine ⟨by simp [audit_url_rules], ?_, ?_⟩
  · intro i u hu
    simp [audit_url_rules, hu]
  · intro u hfail
    cases hf : fetch u with
    | success dat =>
      rw [hf] at hfail
      simp [FetchOutcome.isFailure] at hfail
    | httpError c r => simp [fetch_rules_from_url, hf]
    | urlError r => simp [fetch_rules_from_url, hf]
    | jsonError m => simp [fetch_rules_from_url, hf]
    | otherExc m => simp [fetch_rules_from_url, hf]

/-- **C7 witness**: a concrete two-URL run — the first URL fails with an
HTTP error, and the second is still fetched and parsed. -/
theorem c7_witness :
    (audit_url_rules c7Fetch c7Urls).length = c7Urls.length ∧
    (audit_url_rules c7Fetch c7Urls)[1]? =
      some (fetch_rules_from_url c7Fetch ("https://b.example/r.json")) ∧
    (fetch_rules_from_url c7Fetch ("https://a.example/r.json")).error.isSome = true := by
  refine ⟨(c7_fetch_per_url_and_failure_isolation c7Fetch c7Urls).1, ?_, ?_⟩
  · exact (c7_fetch_per_url_and_failure_isolation c7Fetch c7Urls).2.1 1
      ("https://b.example/r.json") (by decide)
  · exact ((c7_fetch_per_url_and_failure_isolation c7Fetch c7Urls).2.2
      ("https://a.example/r.json") (by decide)).1

/-- **C1 counterexample.** An audit run (Windows, everything found, one
configured external rule URL failing with HTTP 404, built-in rules
present): a per-source error exists for a URL-based source — the claimed
policy gives exit code 1 — yet `main` exits with 0, because the
`has_errors` expression (lines 1057-1062) never consults
`url_rules[i].error`. -/
theorem c1_counterexample :
    (c1CexAudit.url_rules.any (fun s => s.error.isSome)) = true ∧
    claimedExitCodeC1 c1CexAudit = 1 ∧
    mainExitCode c1CexAudit = 0 := by
  refine ⟨rfl, rfl, ?_⟩
  decide

/-- **C1 as amended.** The process exit code is 1 exactly when a
(non-empty) error string exists for the built-in *configuration* or for
the model-embedded, user-level or machine-level source — URL-source errors
are not consulted; else 2 when the total record count across all sources
is zero; else 0. -/
theorem c1_amended_exit_code :
    ∀ r : AuditResult, mainExitCode r = amendedExitCodeC1 r := by
  intro r
  simp [mainExitCode, amendedExitCodeC1, or_assoc]

theorem jlookup_append_left {k : String} {v : JValue} :
    ∀ {l1 : JObj} (l2 : JObj), jlookup k l1 = some v → jlookup k (l1 ++ l2) = some v := by
  intro l1 l2 h
  induction l1 with
  | nil => simp [jlookup] at h
  | cons p rest ih =>
    rw [List.cons_append, jlookup]
    rw [jlookup] at h
    by_cases hk : p.1 = k
    · simpa [hk] using h
    · rw [if_neg hk] at h ⊢
      exact ih h

/-- **C2 counterexample.** Parsing the one-record array `c2CexArr` (whose
record carries `Description = "keep me"`) with `from_dict` and exporting
the resulting source with `export_json`'s `source_to_dict` loses the
`Description` field: the exported rule object has no `Description` key at
all, although the original record had one. -/
theorem c2_counterexample :
    (c2CexArr.map (jlookup ("Description"))) = [some (JValue.str ("keep me"))] ∧
    ((source_to_dict c2CexSource false).rules.map (jlookup ("Description"))) = [none] := by
  exact ⟨rfl, rfl⟩

/-- **C2 as amended.** For every valid JSON array of well-formed rule
records, parsing each record with `BPARule.from_dict` and re-serializing
with `export_json` preserves every parsed field *except `Description`*:
each of `ID`, `Name`, `Severity`, `Scope`, `Expression`, `Category`,
`FixExpression`, `CompatibilityLevel` that is present in a record appears
in the corresponding exported rule object with its original value
(`Description` is read at parse time but omitted by `export_json`). -/
theorem c2_amended_roundtrip_preserves_all_but_description :
    ∀ (arr : List JObj) (loc : String) (p : Option String) (b : Bool)
      (j : Nat) (d : JObj) (k : String) (v : JValue),
      arr[j]? = some d →
      k ∈ (["ID", "Name", "Severity", "Scope", "Expression", "Category",
            "FixExpression", "CompatibilityLevel"] : List String) →
      jlookup k d = some v →
      ∃ e, (source_to_dict
              { location := loc, path := p, rules := parse_bpa_rules_json arr }
              b).rules[j]? = some e ∧
        jlookup k e = some v := by
  intro arr loc p b j d k v hj hk hv
  refine ⟨exportRuleDict (BPARule.from_dict d) b, ?_, ?_⟩
  · simp [source_to_dict, parse_bpa_rules_json, hj]
  · have hbase : jlookup k
        ([ ("ID", (BPARule.from_dict d).id), ("Name", (BPARule.from_dict d).name)
         , ("Category", (BPARule.from_dict d).category)
         , ("Severity", (BPARule.from_dict d).severity)
         , ("Scope", (BPARule.from_dict d).scope)
         , ("Expression", (BPARule.from_dict d).expression)
         , ("FixExpression", (BPARule.from_dict d).fix_expression)
         , ("CompatibilityLevel", (BPARule.from_dict d).compatibility_level)
         , ("IsIgnored", .bool (BPARule.from_dict d).is_ignored) ] : JObj) = some v := by
      fin_cases hk <;>
        simp [jlookup, BPARule.from_dict, jgetD, hv]
    rw [exportRuleDict]
    cases b with
    | false => exact hbase
    | true => exact jlookup_append_left _ hbase

/-- **C2 amended witness**: the preserved fields of the `c2CexArr` record
survive the round trip with their original values (shown for `ID`). -/
theorem c2_amended_witness :
    ∃ e, (source_to_dict
            { location := "User-level (LocalAppData)", path := none
            , rules := parse_bpa_rules_json c2CexArr }
            false).rules[0]? = some e ∧
      jlookup ("ID") e = some (JValue.str ("META_RULE_ONE")) := by
  exact c2_amended_roundtrip_preserves_all_but_description c2CexArr
    ("User-level (LocalAppData)") none false 0 _ ("ID") _ rfl (by decide) rfl

theorem strLast_append (s t : String) (c : Char) (h : t.data.getLast? = some c) :
    (s ++ t).data.getLast? = some c := by
  rw [String.data_append]
  rw [List.getLast?_append_of_ne_nil s.data (by intro e; rw [e] at h; cases h)]
  exact h

theorem msgFor_last (rid tail : String) (c : Char) (h : tail.data.getLast? = some c) :
    (msgFor rid tail).data.getLast? = some c := by
  rw [msgFor]
  exact strLast_append _ _ _ h

theorem str_ne_of_last {a b : String} {c d : Char}
    (ha : a.data.getLast? = some c) (hb : b.data.getLast? = some d) (hcd : c ≠ d) :
    a ≠ b := by
  intro e
  subst e
  rw [ha] at hb
  injection hb with h
  exact hcd h

theorem dupIdMsg_last (tid : String) : (dupIdMsg tid).data.getLast? = some 'D' := by
  rw [dupIdMsg]
  exact msgFor_last _ _ _ rfl

/-- No message whose last character is not `'D'` is a duplicate-ID
message. -/
theorem ne_dupIdMsg_of_last {m : String} {c : Char}
    (hm : m.data.getLast? = some c) (hc : c ≠ 'D') (tid : String) :
    m ≠ dupIdMsg tid :=
  str_ne_of_last hm (dupIdMsg_last tid) hc

theorem destructiveFixMsg_last (rid : String) :
    (destructiveFixMsg rid).data.getLast? = some ')' := by
  rw [destructiveFixMsg]
  exact msgFor_last _ _ _ rfl

theorem mem_ite_singleton {α} {c : Prop} [Decidable c] {x m : α}
    (h : x ∈ (if c then [m] else ([] : List α))) : x = m := by
  split at h <;> simp_all

/-- The compatibility checker never emits a duplicate-ID message. -/
theorem teCompatRule_count_dup (i : Nat) (r : JObj) (tid : String) :
    (teCompatRule i r).count (dupIdMsg tid) = 0 := by
  rw [List.count_eq_zero]
  intro hmem
  simp only [teCompatRule, List.mem_append] at hmem
  rcases hmem with (h | h) | h
  · have h2 := msgFor_last (ruleIdStr r i)
      ("Contains \x27_comment\x27 field - TE doesn\x27t allow extra properties") 's' rfl
    rw [← mem_ite_singleton h, dupIdMsg_last] at h2
    simp at h2
  · have h2 := msgFor_last (ruleIdStr r i)
      ("Contains runtime fields " ++
        pySetRepr (RUNTIME_FIELDS.filter (fun f => (keysOf r).contains f)) ++
        " - remove these (TE adds them automatically)") ')'
      (strLast_append _ (" - remove these (TE adds them automatically)") ')' rfl)
    rw [← mem_ite_singleton h, dupIdMsg_last] at h2
    simp at h2
  · have h2 := msgFor_last (ruleIdStr r i)
      ("Contains unknown fields: " ++
        pySetRepr ((keysOf r).filter
          (fun k => !ALLOWED_FIELDS.contains k && !RUNTIME_FIELDS.contains k && k ≠ "_comment")))
      '\x7d'
      (strLast_append _ _ '\x7d' (by rw [pySetRepr]; exact strLast_append _ ("\x7d") _ rfl))
    rw [← mem_ite_singleton h, dupIdMsg_last] at h2
    simp at h2

/-- On a record whose `ID` is the string `id` and which is well-typed, the
extra-heuristic validation never raises and returns either nothing or
exactly the destructive-fix message. -/
theorem extras_spec (r : JObj) (i : Nat) (id : String)
    (hw : wfRecord r = true) (hID : jlookup ("ID") r = some (.str id)) :
    validate_rule_extras r i = .ok [] ∨
    validate_rule_extras r i = .ok [destructiveFixMsg id] := by
  rw [wfRecord] at hw
  simp only [Bool.and_eq_true] at hw
  obtain ⟨⟨⟨_, hExpr⟩, hFix⟩, hSev⟩ := hw
  have hrid : ruleIdStr r i = id := by rw [ruleIdStr, hID]; rfl
  have hidc : idCheck r = .ok () := by rw [idCheck, hID]
  have hexc : exprCheck r = .ok () := by
    rw [exprCheck]
    rcases he : jlookup ("Expression") r with _ | v
    · rfl
    · rw [he] at hExpr
      cases v <;> simp_all
  have hfixc : fixCheck r id = .ok [] ∨ fixCheck r id = .ok [destructiveFixMsg id] := by
    rcases hf : jlookup ("FixExpression") r with _ | v
    · left
      rw [fixCheck, hf]
    · rw [hf] at hFix
      cases v with
      | str f =>
        have hfc : fixCheck r id =
            (if strContains f ("Delete()") = true then
              match pySevLt3 (jgetD r ("Severity") (.num 1)) with
              | .error e => .error e
              | .ok true => .ok [destructiveFixMsg id]
              | .ok false => .ok []
            else .ok []) := by
          rw [fixCheck, hf]
        by_cases hdel : strContains f ("Delete()") = true
        · rw [hfc, if_pos hdel]
          have hsev3 : ∃ b, pySevLt3 (jgetD r ("Severity") (.num 1)) = .ok b := by
            rw [jgetD]
            rcases hs : jlookup ("Severity") r with _ | w
            · exact ⟨true, rfl⟩
            · rw [hs] at hSev
              cases w <;> simp_all [pySevLt3]
          obtain ⟨b, hb⟩ := hsev3
          rw [hb]
          cases b
          · exact Or.inl rfl
          · exact Or.inr rfl
        · rw [hfc, if_neg hdel]
          exact Or.inl rfl
      | num n => simp at hFix
      | bool b => simp at hFix
      | null =>
        left
        rw [fixCheck, hf]
  rw [validate_rule_extras, hidc, hrid]
  rcases hfixc with hc | hc
  · rw [hc, hexc]
    exact Or.inl rfl
  · rw [hc, hexc]
    exact Or.inr rfl

/-- **C5.** For every well-typed rule record whose `FixExpression`
contains a `Delete()` call: with `Severity = 1` the extra-heuristic
validation returns exactly the destructive-fix error message, and with
`Severity = 3` it returns no message at all (the destructive-fix check at
validate_rules.py lines 251-255 is the only message `validate_rule_extras`
can emit). -/
theorem c5_destructive_fix_low_severity :
    ∀ (r : JObj) (i : Nat) (f : String),
      wfRecord r = true →
      jlookup ("FixExpression") r = some (.str f) →
      strContains f ("Delete()") = true →
      ((jlookup ("Severity") r = some (.num 1) →
          validate_rule_extras r i = .ok [destructiveFixMsg (ruleIdStr r i)]) ∧
       (jlookup ("Severity") r = some (.num 3) →
          validate_rule_extras r i = .ok [])) := by
  intro r i f hw hfix hdel
  rw [wfRecord] at hw
  simp only [Bool.and_eq_true] at hw
  obtain ⟨⟨⟨hid, hExpr⟩, _⟩, _⟩ := hw
  have hidc : idCheck r = .ok () := by
    rw [idCheck]
    rcases hi : jlookup ("ID") r with _ | v
    · rfl
    · rw [hi] at hid
      cases v <;> simp_all
  have hexc : exprCheck r = .ok () := by
    rw [exprCheck]
    rcases he : jlookup ("Expression") r with _ | v
    · rfl
    · rw [he] at hExpr
      cases v <;> simp_all
  have h1 : fixCheck r (ruleIdStr r i) =
      (if strContains f ("Delete()") = true then
        match pySevLt3 (jgetD r ("Severity") (.num 1)) with
        | .error e => .error e
        | .ok true => .ok [destructiveFixMsg (ruleIdStr r i)]
        | .ok false => .ok []
      else .ok []) := by
    rw [fixCheck, hfix]
  constructor
  · intro hsev
    have hfc : fixCheck r (ruleIdStr r i) = .ok [destructiveFixMsg (ruleIdStr r i)] := by
      rw [h1, if_pos hdel, jgetD, hsev]
      rfl
    rw [validate_rule_extras, hidc, hfc, hexc]
  · intro hsev
    have hfc : fixCheck r (ruleIdStr r i) = .ok [] := by
      rw [h1, if_pos hdel, jgetD, hsev]
      rfl
    rw [validate_rule_extras, hidc, hfc, hexc]

/-- **C5 witness**: the concrete record with `FixExpression` containing
`Delete()` — with `Severity = 1` exactly the destructive-fix message is
returned, with `Severity = 3` none. -/
theorem c5_witness :
    validate_rule_extras c5RuleSev1 0 =
      .ok [destructiveFixMsg (ruleIdStr c5RuleSev1 0)] ∧
    validate_rule_extras c5RuleSev3 0 = .ok [] := by
  constructor
  · exact (c5_destructive_fix_low_severity c5RuleSev1 0 ("obj.Delete()")
      (by decide) (by decide) (by decide)).1 (by decide)
  · exact (c5_destructive_fix_low_severity c5RuleSev3 0 ("obj.Delete()")
      (by decide) (by decide) (by decide)).2 (by decide)

/-- **C4 counterexample.** Two records that both carry the *same*
identifier — the empty string — produce **zero** duplicate-ID errors (and
no errors at all): the duplicate check at validate_rules.py lines 306-310
is guarded by `if rule_id:` and an empty-string identifier is falsy in
Python, so the pair is never entered into `seen_ids`. -/
theorem c4_counterexample :
    (c4CexRules.map (jlookup ("ID"))) =
      [some (JValue.str ("")), some (JValue.str (""))] ∧
    validate_rules_file c4CexRules = .ok (2, 0, []) ∧
    dupIdErrorCount ("") (validate_rules_file c4CexRules) = 0 := by
  exact ⟨rfl, rfl, rfl⟩

/-- **C4 as amended.** For every 2-element list of well-typed rule records
in which both records carry the same *non-empty* identifier,
`validate_rules_file` (without schema validation) returns exactly one
duplicate-ID error, regardless of the content of any other field. -/
theorem c4_amended_one_duplicate_error :
    ∀ (r1 r2 : JObj) (id : String),
      wfRecord r1 = true → wfRecord r2 = true →
      jlookup ("ID") r1 = some (.str id) →
      jlookup ("ID") r2 = some (.str id) →
      id ≠ "" →
      dupIdErrorCount id (validate_rules_file [r1, r2]) = 1 := by
  intro r1 r2 id hw1 hw2 h1 h2 hid
  have hdestr : destructiveFixMsg id ≠ dupIdMsg id :=
    ne_dupIdMsg_of_last (destructiveFixMsg_last id) (by decide) id
  have ext1 : ∃ e, validate_rule_extras r1 0 = .ok e ∧ e.count (dupIdMsg id) = 0 := by
    rcases extras_spec r1 0 id hw1 h1 with h | h
    · exact ⟨[], h, rfl⟩
    · refine ⟨_, h, ?_⟩
      rw [List.count_eq_zero]
      simp only [List.mem_singleton]
      intro he
      exact hdestr he.symm
  have ext2 : ∃ e, validate_rule_extras r2 1 = .ok e ∧ e.count (dupIdMsg id) = 0 := by
    rcases extras_spec r2 1 id hw2 h2 with h | h
    · exact ⟨[], h, rfl⟩
    · refine ⟨_, h, ?_⟩
      rw [List.count_eq_zero]
      simp only [List.mem_singleton]
      intro he
      exact hdestr he.symm
  obtain ⟨e1, he1, hc1⟩ := ext1
  obtain ⟨e2, he2, hc2⟩ := ext2
  have hg1 : jgetD r1 ("ID") .null = .str id := by rw [jgetD, h1]; rfl
  have hg2 : jgetD r2 ("ID") .null = .str id := by rw [jgetD, h2]; rfl
  have ht : pyTruthyJ (.str id) = true := by simp [pyTruthyJ, hid]
  have helem : List.elem (JValue.str id) [JValue.str id] = true := by
    simp [List.elem]
  have hloop : vrfLoop [(0, r1), (1, r2)] [] =
      .ok (e1 ++ [] ++ (e2 ++ [dupIdMsg id] ++ [])) := by
    simp only [vrfLoop, he1, he2, hg1, hg2, ht, if_true, List.contains,
      List.elem_nil, if_false, Bool.false_eq_true, pyStr, List.nil_append, helem]
  have henum : ([r1, r2] : List JObj).enum = [(0, r1), (1, r2)] := rfl
  have hte : check_te_compatibility [r1, r2] =
      teCompatRule 0 r1 ++ (teCompatRule 1 r2 ++ []) := by
    rw [check_te_compatibility, henum]
    rfl
  have hvf : validate_rules_file [r1, r2] =
      .ok (2, (check_te_compatibility [r1, r2] ++
          (e1 ++ [] ++ (e2 ++ [dupIdMsg id] ++ []))).length,
        check_te_compatibility [r1, r2] ++ (e1 ++ [] ++ (e2 ++ [dupIdMsg id] ++ []))) := by
    rw [validate_rules_file, henum, hloop]
    rfl
  rw [hvf, dupIdErrorCount]
  rw [hte]
  simp [List.count_append, teCompatRule_count_dup, hc1, hc2]

/-- **C4 amended witness**: two concrete records sharing the non-empty
identifier `PERF_X`, with different other fields, give exactly one
duplicate-ID error. -/
theorem c4_amended_witness :
    dupIdErrorCount ("PERF_X") (validate_rules_file
      [ [("ID", JValue.str ("PERF_X")), ("Name", JValue.str ("one"))]
      , [("ID", JValue.str ("PERF_X")), ("Other", JValue.num 7)] ]) = 1 := by
  exact c4_amended_one_duplicate_error _ _ ("PERF_X")
    (by decide) (by decide) (by decide) (by decide) (by decide)

theorem dropWhile_append_all {p : Char → Bool} {w : List Char}
    (hw : ∀ c ∈ w, p c = true) (l : List Char) :
    (w ++ l).dropWhile p = l.dropWhile p := by
  induction w with
  | nil => rfl
  | cons c t ih =>
    rw [List.cons_append, List.dropWhile_cons, if_pos (hw c (List.mem_cons_self c t))]
    exact ih (fun x hx => hw x (List.mem_cons_of_mem c hx))

theorem dropWhile_append_ne {p : Char → Bool} :
    ∀ {l : List Char}, l.dropWhile p ≠ [] → ∀ m, (l ++ m).dropWhile p = l.dropWhile p ++ m := by
  intro l
  induction l with
  | nil => intro hl; simp at hl
  | cons c t ih =>
    intro hl m
    by_cases hc : p c = true
    · rw [List.dropWhile_cons, if_pos hc] at hl
      rw [List.cons_append, List.dropWhile_cons, if_pos hc, List.dropWhile_cons, if_pos hc]
      exact ih hl m
    · have hc' : ¬ (p c = true) := hc
      rw [List.cons_append, List.dropWhile_cons, if_neg hc', List.dropWhile_cons, if_neg hc',
        List.cons_append]

theorem stripLeftL_ws_prefix {w : List Char} (hw : ∀ c ∈ w, pyWs c = true) (l : List Char) :
    stripLeftL (w ++ l) = stripLeftL l :=
  dropWhile_append_all hw l

theorem stripRightL_ws_suffix (l : List Char) {w : List Char}
    (hw : ∀ c ∈ w, pyWs c = true) :
    stripRightL (l ++ w) = stripRightL l := by
  rw [stripRightL, stripRightL, List.reverse_append,
    dropWhile_append_all (fun c hc => hw c (List.mem_reverse.mp hc))]

theorem pyStripChars_append_ws (l : List Char) {w : List Char}
    (hw : ∀ c ∈ w, pyWs c = true) :
    pyStripChars (l ++ w) = pyStripChars l := by
  rw [pyStripChars, pyStripChars]
  rcases hl : stripLeftL l with _ | ⟨c, t⟩
  · have hall : ∀ c ∈ l, pyWs c = true := List.dropWhile_eq_nil_iff.mp hl
    have h1 : stripLeftL (l ++ w) = stripLeftL w := dropWhile_append_all hall w
    have h2 : stripLeftL w = [] := List.dropWhile_eq_nil_iff.mpr hw
    rw [h1, h2]
  · have h1 : stripLeftL (l ++ w) = stripLeftL l ++ w := by
      rw [stripLeftL]
      exact dropWhile_append_ne (by rw [show l.dropWhile pyWs = stripLeftL l from rfl, hl]; simp) w
    rw [h1, hl, stripRightL_ws_suffix _ hw]

theorem pyStripChars_ws_prefix {w : List Char} (hw : ∀ c ∈ w, pyWs c = true)
    (l : List Char) :
    pyStripChars (w ++ l) = pyStripChars l := by
  rw [pyStripChars, pyStripChars, stripLeftL_ws_prefix hw]

theorem pyStripChars_newline_cons (l : List Char) :
    pyStripChars ('\n' :: l) = pyStripChars l :=
  pyStripChars_ws_prefix (w := ['\n']) (by decide) l

theorem joinNl_eq_pyJoin (l : String) (ls : List String) :
    joinNl (l :: ls) = '\n' :: (pyJoin ("\n") (l :: ls)).data := by
  induction ls generalizing l with
  | nil => simp [joinNl, pyJoin]
  | cons y t ih =>
    rw [joinNl, ih y, pyJoin, String.data_append, String.data_append]
    simp

theorem data_append_joinNl (r0 : String) (rest : List String) :
    r0.data ++ joinNl rest = (pyJoin ("\n") (r0 :: rest)).data := by
  cases rest with
  | nil => simp [joinNl, pyJoin]
  | cons y t =>
    rw [joinNl_eq_pyJoin, pyJoin, String.data_append, String.data_append]
    simp

theorem pyStripChars_joinNl (body : List String) :
    pyStripChars (joinNl body) = pyStripChars ((pyJoin ("\n") body).data) := by
  cases body with
  | nil => rfl
  | cons l t => rw [joinNl_eq_pyJoin, pyStripChars_newline_cons]

theorem fenceScan_closing (cl : String) (idx : Nat)
    (hcl : strFind (("```").data) cl.data = some idx) :
    ∀ (body : List String), (∀ l ∈ body, strFind (("```").data) l.data = none) →
    ∀ (c : List Char) (rest : List String),
      fenceScan c (body ++ cl :: rest) =
        ⟨pyStripChars (c ++ joinNl body ++ '\n' :: cl.data.take idx)⟩ := by
  intro body
  induction body with
  | nil =>
    intro _ c rest
    rw [List.nil_append, fenceScan, hcl]
    simp [joinNl]
  | cons l t ih =>
    intro hb c rest
    rw [List.cons_append, fenceScan, hb l (List.mem_cons_self l t)]
    rw [ih (fun x hx => hb x (List.mem_cons_of_mem l hx)) (c ++ '\n' :: l.data) rest]
    rw [joinNl]
    simp

theorem fenceScan_no_closing :
    ∀ (body : List String), (∀ l ∈ body, strFind (("```").data) l.data = none) →
    ∀ (c : List Char), fenceScan c body = ⟨pyStripChars (c ++ joinNl body)⟩ := by
  intro body
  induction body with
  | nil => intro _ c; rw [fenceScan, joinNl, List.append_nil]
  | cons l t ih =>
    intro hb c
    rw [fenceScan, hb l (List.mem_cons_self l t)]
    rw [ih (fun x hx => hb x (List.mem_cons_of_mem l hx)) (c ++ '\n' :: l.data)]
    rw [joinNl]
    simp

theorem extractLoop_skip (name : String) (b : Nat) (acc : List String) :
    ∀ (pre ls : List String), (∀ l ∈ pre, matchAnnot name l = none) →
      extractLoop name (pre ++ ls) false b acc = extractLoop name ls false b acc := by
  intro pre
  induction pre with
  | nil => intro ls _; rw [List.nil_append]
  | cons l t ih =>
    intro ls hp
    rw [List.cons_append, extractLoop, hp l (List.mem_cons_self l t)]
    simp only [Bool.false_eq_true, if_false]
    exact ih ls (fun x hx => hp x (List.mem_cons_of_mem l hx))

theorem stripLeftL_cons_nonws {c : Char} (hc : pyWs c = false) (l : List Char) :
    stripLeftL (c :: l) = c :: l := by
  rw [stripLeftL, List.dropWhile_cons, if_neg (by simp [hc])]

theorem stripRightL_concat_nonws (l : List Char) {c : Char} (hc : pyWs c = false) :
    stripRightL (l ++ [c]) = l ++ [c] := by
  rw [stripRightL, List.reverse_append, List.reverse_singleton, List.singleton_append,
    List.dropWhile_cons, if_neg (by simp [hc])]
  simp

theorem quoted_data (v : String) :
    ("\"" ++ v ++ "\"").data = '"' :: (v.data ++ ['"']) := by
  simp [String.data_append]

theorem strip_quoted (v : String) :
    pyStrip ("\"" ++ v ++ "\"") = "\"" ++ v ++ "\"" := by
  apply String.ext
  show pyStripChars (("\"" ++ v ++ "\"").data) = ("\"" ++ v ++ "\"").data
  rw [quoted_data, pyStripChars, stripLeftL_cons_nonws (by decide)]
  rw [show '"' :: (v.data ++ ['"']) = ('"' :: v.data) ++ ['"'] from rfl]
  rw [stripRightL_concat_nonws _ (by decide)]

theorem quoted_not_fence (v : String) : strStarts ("\"" ++ v ++ "\"") ("```") = false := by
  rw [strStarts, quoted_data, show ("```").data = ['`', '`', '`'] from rfl]
  simp [List.isPrefixOf]

theorem quoted_ne_empty (v : String) : ("\"" ++ v ++ "\"") ≠ "" := by
  intro h
  have := congrArg String.data h
  rw [quoted_data] at this
  simp at this

theorem quoted_not_space (v : String) : pyIsSpace ("\"" ++ v ++ "\"") = false := by
  rw [pyIsSpace, quoted_data]
  simp [show pyWs '"' = false from rfl]

theorem quoted_not_bracket (v : String) : strStarts ("\"" ++ v ++ "\"") ("[") = false := by
  rw [strStarts, quoted_data, show ("[").data = ['['] from rfl]
  simp [List.isPrefixOf]

theorem quoted_not_brace (v : String) : strStarts ("\"" ++ v ++ "\"") ("\x7b") = false := by
  rw [strStarts, quoted_data, show ("\x7b").data = ['\x7b'] from rfl]
  simp [List.isPrefixOf]

theorem quoted_not_squote (v : String) : strStarts ("\"" ++ v ++ "\"") ("\x27") = false := by
  rw [strStarts, quoted_data, show ("\x27").data = ['\x27'] from rfl]
  simp [List.isPrefixOf]

theorem quoted_starts_dquote (v : String) : strStarts ("\"" ++ v ++ "\"") ("\"") = true := by
  rw [strStarts, quoted_data, show ("\"").data = ['"'] from rfl]
  simp [List.isPrefixOf]

theorem quoted_ends_dquote (v : String) : strEnds ("\"" ++ v ++ "\"") ("\"") = true := by
  rw [strEnds, quoted_data, show ("\"").data = ['"'] from rfl]
  rw [show ('"' :: (v.data ++ ['"'])) = (('"' :: v.data) ++ ['"']) from rfl]
  rw [List.isSuffixOf, List.reverse_append]
  simp [List.isPrefixOf]

theorem quoted_slice (v : String) : strSliceInner ("\"" ++ v ++ "\"") = v := by
  apply String.ext
  show ((("\"" ++ v ++ "\"").data.drop 1).dropLast) = v.data
  rw [quoted_data, List.drop_one, List.tail_cons, List.dropLast_concat]

/-- The matched-line step of `extractLoop`, spelled out. -/
theorem extractLoop_matched (name line : String) (rest : List String) (inAnn : Bool)
    (bi : Nat) (acc : List String) (b : Nat) (g2 : String)
    (hm : matchAnnot name line = some (b, g2)) :
    extractLoop name (line :: rest) inAnn bi acc =
      (if strStarts (pyStrip g2) ("```") then
        some (fenceScan ((pyStrip g2).data.drop 3) rest)
      else if (pyStrip g2) ≠ "" && !pyIsSpace (pyStrip g2) then
        if strStarts (pyStrip g2) ("[") || strStarts (pyStrip g2) ("\x7b") then
          extractLoop name rest true b (acc ++ [pyStrip g2])
        else if strStarts (pyStrip g2) ("\x27") && strEnds (pyStrip g2) ("\x27") then
          some (strSliceInner (pyStrip g2))
        else if strStarts (pyStrip g2) ("\"") && strEnds (pyStrip g2) ("\"") then
          some (strSliceInner (pyStrip g2))
        else some (pyStrip g2)
      else extractLoop name rest true b acc) := by
  rw [extractLoop, hm]

/-- The unmatched-line step of `extractLoop`, spelled out. -/
theorem extractLoop_unmatched (name line : String) (rest : List String) (inAnn : Bool)
    (bi : Nat) (acc : List String) (hm : matchAnnot name line = none) :
    extractLoop name (line :: rest) inAnn bi acc =
      (if inAnn then
        if pyLstrip line = "" then extractLoop name rest true bi acc
        else if line.data.length - (pyLstrip line).data.length ≤ bi then finalizeVal acc
        else extractLoop name rest true bi (acc ++ [pyLstrip line])
      else extractLoop name rest false bi acc) := by
  rw [extractLoop, hm]

/-- A matched annotation line whose stripped remainder is a double-quoted
value returns that value with the quotes stripped, immediately. -/
theorem extractLoop_quoted_value (name annLine : String) (rest acc : List String)
    (b : Nat) (g2 v : String)
    (hm : matchAnnot name annLine = some (b, g2))
    (hg : pyStrip g2 = "\"" ++ v ++ "\"") :
    extractLoop name (annLine :: rest) false 0 acc = some v := by
  rw [extractLoop_matched name annLine rest false 0 acc b g2 hm, hg]
  simp [quoted_not_fence, quoted_ne_empty, quoted_not_space, quoted_not_bracket,
    quoted_not_brace, quoted_not_squote, quoted_starts_dquote, quoted_ends_dquote,
    quoted_slice]

/-- Inside an indented annotation block: blank-or-deeper lines accumulate
their stripped text (blank lines skipped), and the first non-blank line at
base indentation or shallower ends the block. -/
theorem extractLoop_indented (name : String) (b : Nat) (stop : String) (rest : List String)
    (hsm : matchAnnot name stop = none)
    (hsnb : pyLstrip stop ≠ "")
    (hsi : indentGap stop ≤ b) :
    ∀ (body : List String),
      (∀ l ∈ body, matchAnnot name l = none ∧ (pyLstrip l = "" ∨ b < indentGap l)) →
      ∀ (acc : List String),
      extractLoop name (body ++ stop :: rest) true b acc =
        finalizeVal (acc ++ (body.filter (fun l => pyLstrip l ≠ "")).map pyLstrip) := by
  intro body
  induction body with
  | nil =>
    intro _ acc
    rw [List.nil_append, extractLoop_unmatched name stop rest true b acc hsm,
      if_pos rfl, if_neg hsnb,
      if_pos (show stop.data.length - (pyLstrip stop).data.length ≤ b from hsi)]
    simp
  | cons l t ih =>
    intro hb acc
    have hlm := (hb l (List.mem_cons_self l t)).1
    have hli := (hb l (List.mem_cons_self l t)).2
    have hbt := fun x hx => hb x (List.mem_cons_of_mem l hx)
    rw [List.cons_append, extractLoop_unmatched name l _ true b acc hlm, if_pos rfl]
    by_cases hblank : pyLstrip l = ""
    · rw [if_pos hblank, ih hbt acc]
      congr 1
      simp [List.filter_cons, hblank]
    · have hdeep : b < indentGap l := hli.resolve_left hblank
      rw [if_neg hblank, if_neg (by
        rw [show l.data.length - (pyLstrip l).data.length = indentGap l from rfl]
        omega)]
      rw [ih hbt (acc ++ [pyLstrip l])]
      congr 1
      simp [List.filter_cons, hblank]

/-- **C3.** Annotation extraction recovers the declared value in each of
the three value shapes.  Content is represented by its `'\n'`-split line
list (the first operation of the source).  (a) A single-line double-quoted
value `annotation X = "v"` yields `v` with the surrounding quotes
stripped.  (b) A triple-backtick-fenced block yields the fenced lines
minus the fences, joined and trimmed (the closing-fence line may be
indented by whitespace).  (c) With an empty remainder, the value is the
following lines as long as each is blank or indented deeper than the
annotation's own indentation, dedented and joined; the first non-blank
line with indentation ≤ the base ends the block, and blank lines are
skipped without ending it. -/
theorem c3_annotation_extraction_shapes :
    (∀ (name : String) (pre : List String) (annLine : String) (rest : List String)
       (b : Nat) (g2 v : String),
      (∀ l ∈ pre, matchAnnot name l = none) →
      matchAnnot name annLine = some (b, g2) →
      pyStrip g2 = "\"" ++ v ++ "\"" →
      extractLines name (pre ++ annLine :: rest) = some v) ∧
    (∀ (name : String) (pre : List String) (annLine : String) (body : List String)
       (cl : String) (rest : List String) (b : Nat) (g2 : String) (idx : Nat),
      (∀ l ∈ pre, matchAnnot name l = none) →
      matchAnnot name annLine = some (b, g2) →
      pyStrip g2 = "```" →
      (∀ l ∈ body, strFind (("```").data) l.data = none) →
      strFind (("```").data) cl.data = some idx →
      (∀ c ∈ cl.data.take idx, pyWs c = true) →
      extractLines name (pre ++ annLine :: (body ++ cl :: rest)) =
        some (pyStrip (pyJoin ("\n") body))) ∧
    (∀ (name : String) (pre : List String) (annLine : String) (body : List String)
       (stop : String) (rest : List String) (b : Nat) (g2 : String),
      (∀ l ∈ pre, matchAnnot name l = none) →
      matchAnnot name annLine = some (b, g2) →
      pyStrip g2 = "" →
      (∀ l ∈ body, matchAnnot name l = none ∧ (pyLstrip l = "" ∨ b < indentGap l)) →
      matchAnnot name stop = none →
      pyLstrip stop ≠ "" →
      indentGap stop ≤ b →
      body.filter (fun l => pyLstrip l ≠ "") ≠ [] →
      extractLines name (pre ++ annLine :: (body ++ stop :: rest)) =
        some (pyJoin ("\n") ((body.filter (fun l => pyLstrip l ≠ "")).map pyLstrip))) := by
  refine ⟨?_, ?_, ?_⟩
  · intro name pre annLine rest b g2 v hpre hm hg
    rw [extractLines, extractLoop_skip name 0 [] pre _ hpre]
    exact extractLoop_quoted_value name annLine rest [] b g2 v hm hg
  · intro name pre annLine body cl rest b g2 idx hpre hm hg hbody hcl hws
    rw [extractLines, extractLoop_skip name 0 [] pre _ hpre,
      extractLoop_matched name annLine _ false 0 [] b g2 hm, hg]
    have h1 : strStarts ("```") ("```") = true := by decide
    simp only [h1, if_true]
    have h2 : (("```" : String)).data.drop 3 = [] := rfl
    rw [h2, fenceScan_closing cl idx hcl body hbody [] rest]
    congr 1
    apply String.ext
    show pyStripChars ([] ++ joinNl body ++ '\n' :: cl.data.take idx) =
      pyStripChars ((pyJoin ("\n") body).data)
    rw [List.nil_append,
      pyStripChars_append_ws (joinNl body)
        (w := '\n' :: cl.data.take idx)
        (by
          intro c hc
          rcases List.mem_cons.mp hc with h | h
          · subst h; decide
          · exact hws c h)]
    exact pyStripChars_joinNl body
  · intro name pre annLine body stop rest b g2 hpre hm hg hbody hsm hsnb hsi hne
    rw [extractLines, extractLoop_skip name 0 [] pre _ hpre,
      extractLoop_matched name annLine _ false 0 [] b g2 hm, hg]
    have h1 : strStarts ("") ("```") = false := by decide
    have h2 : ((("" : String) ≠ "") && !pyIsSpace ("")) = false := by decide
    simp only [h1, h2, Bool.false_eq_true, if_false]
    rw [extractLoop_indented name b stop rest hsm hsnb hsi body hbody [], List.nil_append]
    rcases hfil : body.filter (fun l => pyLstrip l ≠ "") with _ | ⟨x, xs⟩
    · exact absurd hfil hne
    · rfl

/-- **C3 witness**: the three concrete shapes — `annotation X = "hello"`,
a fenced three-line block, and an indented two-line block with an interior
blank line. -/
theorem c3_witness :
    extractLines ("X") ["annotation X = \"hello\""] = some ("hello") ∧
    extractLines ("X") ["annotation X = ```", "line1", "line2", "line3", "```"] =
      some (pyStrip (pyJoin ("\n") ["line1", "line2", "line3"])) ∧
    extractLines ("X") ["annotation X =", "\t\tvalue line A", "", "\t\tvalue line B", "next"] =
      some (pyJoin ("\n")
        (((["\t\tvalue line A", "", "\t\tvalue line B"] : List String).filter
          (fun l => pyLstrip l ≠ "")).map pyLstrip)) := by
  refine ⟨?_, ?_, ?_⟩
  · exact c3_annotation_extraction_shapes.1 ("X") [] ("annotation X = \"hello\"") [] 0
      ("\"hello\"") ("hello") (by simp) (by decide) (by decide)
  · exact c3_annotation_extraction_shapes.2.1 ("X") [] ("annotation X = ```")
      ["line1", "line2", "line3"] ("```") [] 0 ("```") 0
      (by simp) (by decide) (by decide) (by decide) (by decide) (by decide)
  · exact c3_annotation_extraction_shapes.2.2 ("X") [] ("annotation X =")
      ["\t\tvalue line A", "", "\t\tvalue line B"] ("next") [] 0 ("")
      (by simp) (by decide) (by decide) (by decide) (by decide) (by decide) (by decide)
      (by decide)

/-- **C9.** When the queried annotation's stripped remainder begins with a
triple-backtick fence but no closing fence appears on any later line,
`extract_annotation_value` returns everything that remains — the
after-fence part of the annotation line and all later lines — joined and
trimmed, rather than nothing-found. -/
theorem c9_unclosed_fence_returns_rest :
    ∀ (name : String) (pre : List String) (annLine : String) (rest : List String)
      (b : Nat) (g2 r0 : String),
      (∀ l ∈ pre, matchAnnot name l = none) →
      matchAnnot name annLine = some (b, g2) →
      pyStrip g2 = "```" ++ r0 →
      (∀ l ∈ rest, strFind (("```").data) l.data = none) →
      extractLines name (pre ++ annLine :: rest) =
        some (pyStrip (pyJoin ("\n") (r0 :: rest))) := by
  intro name pre annLine rest b g2 r0 hpre hm hg hrest
  rw [extractLines, extractLoop_skip name 0 [] pre _ hpre,
    extractLoop_matched name annLine rest false 0 [] b g2 hm, hg]
  have h1 : strStarts ("```" ++ r0) ("```") = true := by
    rw [strStarts, String.data_append, show (("```")).data = ['`', '`', '`'] from rfl]
    simp [List.isPrefixOf]
  simp only [h1, if_true]
  have h2 : ("```" ++ r0).data.drop 3 = r0.data := by
    rw [String.data_append]
    rfl
  rw [h2, fenceScan_no_closing rest hrest r0.data]
  congr 1
  apply String.ext
  show pyStripChars (r0.data ++ joinNl rest) = pyStripChars ((pyJoin ("\n") (r0 :: rest)).data)
  rw [data_append_joinNl]

/-- **C9 witness**: an opening fence with no closing fence — the remaining
lines come back joined and trimmed instead of nothing-found. -/
theorem c9_witness :
    extractLines ("X") ["annotation X = ```", "a", "b"] =
      some (pyStrip (pyJoin ("\n") ["", "a", "b"])) := by
  exact c9_unclosed_fence_returns_rest ("X") [] ("annotation X = ```") ["a", "b"] 0
    ("```") ("") (by simp) (by decide) (by decide) (by decide)
